import Mathlib

/-!
Verification of the `Resource` SWR engine (angular-swr, `resource.ts`).

The embedding models the `Resource` class as a state machine over a `World`
that bundles the instance fields mutated by the class, the class-scoped cache
mapping obtained from the `CacheRegistry`, a counter supplying identities for
freshly constructed fetch streams, and a trace of the observable side effects
(stream construction, subscribe, unsubscribe, `ErrorHandler.handleError`).

JavaScript exceptions are modelled with `Except`: the configurable serializer
(`getCacheKey`) and the synchronous invocation of `Fetchable.fetch` are
functions into `Except E _`, and the `try/catch` of `Resource.fetch` becomes
explicit matching, with the field assignments made before the throwing call
preserved (sequential mutation is threaded through `let`s in source order).
Stream event delivery (rxjs) is modelled by `deliverNext` / `deliverError` /
`deliverComplete`, which reach the observer only while the resource's current
subscription targets the emitting stream.
-/

namespace SWR

/-- Lifecycle states of a resource (`enum ResourceState`). -/
inductive ResourceState where
  | EMPTY
  | READY
  | SLOW
  | ACTIVE
  | ERROR
  | COMPLETE
deriving DecidableEq, Repr

/-- A cache entry: the multicast fetch stream (identified by a stream id)
and the dedupe timestamp (`lastModified?: number`, always set by the code
that stores entries but optional in the type). -/
structure CacheEntry where
  source : Nat
  lastModified : Option Int
deriving DecidableEq, Repr

/-- Observable side effects of the resource engine:
`constructStream key sid` is one invocation of `fetchable.fetch` wrapped by
`createFetchObservable` and stored in the cache under `key` with identity
`sid`; `subscribe` / `unsubscribe` are subscription management on the active
stream; `handleError` is the call to the injected `ErrorHandler`. -/
inductive Event (E : Type) where
  | constructStream (key : String) (sid : Nat)
  | subscribe (sid : Nat)
  | unsubscribe (sid : Option Nat)
  | handleError (e : Option E)
deriving DecidableEq, Repr

/-- The mutable instance fields of `Resource<T>`.
`value` is the private `#value` backing field; `sourceId` identifies the
observable held in `this.source` (id 0 stands for the initial rxjs `EMPTY`);
`timeout` records whether a slow timer handle is stored; `subscribedTo`
identifies the stream the live `this.subscription` was taken on. -/
structure ResourceModel (P V E : Type) where
  state : ResourceState
  value : Option V
  thrownError : Option E
  params : Option P
  cacheKey : Option String
  sourceId : Nat
  pending : Bool
  slow : Bool
  timeout : Bool
  connected : Bool
  subscribedTo : Option Nat
deriving DecidableEq, Repr

/-- One resource instance together with the class-scoped cache mapping,
the supply of fresh stream identities, and the effect trace. -/
structure World (P V E : Type) where
  res : ResourceModel P V E
  cache : List (String × CacheEntry)
  nextStreamId : Nat
  trace : List (Event E)
deriving DecidableEq, Repr

/-- The options recognised by the engine (`ResourceOptions`): `immutable`
(absent = false), `dedupeMs` (absent = default 2000) and `timeoutMs`
(absent or 0 = no slow timer, matching the truthiness test `if (timeoutMs)`). -/
structure ResourceOptions where
  immutable : Bool
  dedupeMs : Option Int
  timeoutMs : Option Nat
deriving DecidableEq, Repr

/-- `Map.get`: first entry with the given key. -/
def cacheLookup : List (String × CacheEntry) → String → Option CacheEntry
  | [], _ => none
  | (k', e) :: rest, k => if k' = k then some e else cacheLookup rest k

/-- `Map.set`: replace in place when the key is present, else append. -/
def cacheSet : List (String × CacheEntry) → String → CacheEntry →
    List (String × CacheEntry)
  | [], k, e => [(k, e)]
  | (k', e') :: rest, k, e =>
      if k' = k then (k, e) :: rest else (k', e') :: cacheSet rest k e

/-- `Map.delete`: remove the entries with the given key. -/
def cacheDelete : List (String × CacheEntry) → String → List (String × CacheEntry)
  | [], _ => []
  | (k', e) :: rest, k =>
      if k' = k then cacheDelete rest k else (k', e) :: cacheDelete rest k

/-- `isWithinDedupeInterval(dedupeIntervalMs, then)`: `Date.now() - then <
dedupeIntervalMs`, where an absent timestamp defaults to `-Infinity`, making
the comparison false for every finite window. -/
def isWithinDedupeInterval (dedupeIntervalMs : Int) (now : Int)
    (thenMs : Option Int) : Bool :=
  match thenMs with
  | none => false
  | some t => decide (now - t < dedupeIntervalMs)

/-- `ResourceSubject.emit(state, value, pending, thrownError)`: writes the
state and flags, clears the timer handle, stores the value on `ACTIVE` and
the error on `ERROR`, then notifies change detection and the subject. -/
def emit {P V E : Type} (w : World P V E) (state : ResourceState)
    (value : Option V) (pending : Bool) (thrownError : Option E) : World P V E :=
  let r1 := { w.res with
    state := state
    pending := pending
    slow := decide (state = ResourceState.SLOW)
    timeout := false }
  let r2 :=
    match state with
    | ResourceState.ACTIVE => { r1 with value := value }
    | ResourceState.ERROR => { r1 with thrownError := thrownError }
    | _ => r1
  { w with res := r2 }

/-- `ResourceSubject.next(value)`. -/
def observerNext {P V E : Type} (v : V) (w : World P V E) : World P V E :=
  emit w ResourceState.ACTIVE (some v) false none

/-- `ResourceSubject.error(error)`. -/
def observerError {P V E : Type} (e : E) (w : World P V E) : World P V E :=
  emit w ResourceState.ERROR none false (some e)

/-- `ResourceSubject.complete()`. -/
def observerComplete {P V E : Type} (w : World P V E) : World P V E :=
  emit w ResourceState.COMPLETE none false none

/-- The static slow-timer callback `Resource.slow(resource)`: re-emits the
current value, pending flag and error with state `SLOW`. -/
def slowFire {P V E : Type} (w : World P V E) : World P V E :=
  emit w ResourceState.SLOW w.res.value w.res.pending w.res.thrownError

/-- `Resource.connect()`: no-op when connected; otherwise marks connected,
clears the previous error, sets `pending`, arms the slow timer when
`timeoutMs` is truthy, and subscribes to the active stream. (The feature
list is empty here; hooks add no state relevant to the claims.) -/
def connect {P V E : Type} (opts : ResourceOptions) (w : World P V E) :
    World P V E :=
  if w.res.connected then w
  else
    let timeoutArmed :=
      match opts.timeoutMs with
      | some t => decide (t ≠ 0)
      | none => false
    let r := { w.res with
      connected := true
      thrownError := none
      pending := true
      timeout := if timeoutArmed then true else w.res.timeout
      subscribedTo := some w.res.sourceId }
    { w with res := r, trace := w.trace ++ [Event.subscribe w.res.sourceId] }

/-- `Resource.disconnect()`: no-op when not connected; otherwise clears the
connected flag and unsubscribes the stored subscription. -/
def disconnect {P V E : Type} (w : World P V E) : World P V E :=
  if w.res.connected then
    { w with
      res := { w.res with connected := false, subscribedTo := none }
      trace := w.trace ++ [Event.unsubscribe w.res.subscribedTo] }
  else w

/-- `Resource.fetch(...params)`. `serialize` is `getCacheKey` (custom
serializer or `JSON.stringify`, either of which may throw); `fetchable` is
the synchronous invocation of `Fetchable.fetch` (which may throw); `now` is
`Date.now()`. The `try/catch` routes either throw to `observer.error`,
keeping the field writes already performed. -/
def fetch {P V E : Type} (opts : ResourceOptions)
    (serialize : P → Except E String) (fetchable : P → Except E Unit)
    (now : Int) (params : P) (w : World P V E) : World P V E :=
  match serialize params with
  | Except.error e => observerError e w
  | Except.ok cacheKey =>
    let cacheEntry := cacheLookup w.cache cacheKey
    let shouldDedupe := isWithinDedupeInterval (opts.dedupeMs.getD 2000) now
      (cacheEntry.bind (fun c => c.lastModified))
    let shouldConnect := decide (w.res.state ≠ ResourceState.EMPTY)
    let r1 := { w.res with
      state := ResourceState.READY
      params := some params
      cacheKey := some cacheKey }
    let r2 :=
      match cacheEntry with
      | some c => { r1 with sourceId := c.source }
      | none => r1
    let w1 := { w with res := r2 }
    if (!opts.immutable || cacheEntry.isNone) && !shouldDedupe then
      match fetchable params with
      | Except.error e => observerError e w1
      | Except.ok _ =>
        let sid := w1.nextStreamId
        let w2 := { w1 with
          cache := cacheSet w1.cache cacheKey
            { source := sid, lastModified := some now }
          nextStreamId := sid + 1
          res := { w1.res with sourceId := sid }
          trace := w1.trace ++ [Event.constructStream cacheKey sid] }
        if shouldConnect then connect opts (disconnect w2) else w2
    else
      if shouldConnect then connect opts (disconnect w1) else w1

/-- `Resource.read()`: reports the error on `ERROR`, lazily connects on
`READY`, and returns the private `#value` field. -/
def read {P V E : Type} (opts : ResourceOptions) (w : World P V E) :
    World P V E × Option V :=
  let w' :=
    match w.res.state with
    | ResourceState.ERROR =>
        { w with trace := w.trace ++ [Event.handleError w.res.thrownError] }
    | ResourceState.READY => connect opts w
    | _ => w
  (w', w'.res.value)

/-- The public `value` property getter: `get value() { return this.read() }`. -/
def valueProperty {P V E : Type} (opts : ResourceOptions) (w : World P V E) :
    World P V E × Option V :=
  read opts w

/-- `Resource.invalidate(all)`: clear the whole class-scoped mapping, or
delete only the entry under the current cache key. -/
def invalidate {P V E : Type} (all : Bool) (w : World P V E) : World P V E :=
  if all then { w with cache := [] }
  else
    match w.res.cacheKey with
    | some k => { w with cache := cacheDelete w.cache k }
    | none => w

/-- Delivery of a stream `next` event: reaches the observer only while the
resource's subscription targets the emitting stream. -/
def deliverNext {P V E : Type} (sid : Nat) (v : V) (w : World P V E) :
    World P V E :=
  if w.res.subscribedTo = some sid then observerNext v w else w

/-- Delivery of a stream `error` event. -/
def deliverError {P V E : Type} (sid : Nat) (e : E) (w : World P V E) :
    World P V E :=
  if w.res.subscribedTo = some sid then observerError e w else w

/-- Delivery of a stream `complete` event. -/
def deliverComplete {P V E : Type} (sid : Nat) (w : World P V E) :
    World P V E :=
  if w.res.subscribedTo = some sid then observerComplete w else w

/-- The fields as initialised by the `Resource` constructor. -/
def initialResource (P V E : Type) : ResourceModel P V E :=
  { state := ResourceState.EMPTY
    value := none
    thrownError := none
    params := none
    cacheKey := none
    sourceId := 0
    pending := false
    slow := false
    timeout := false
    connected := false
    subscribedTo := none }

/-- A fresh resource with an empty class-scoped cache. -/
def initialWorld (P V E : Type) : World P V E :=
  { res := initialResource P V E
    cache := []
    nextStreamId := 1
    trace := [] }

/-- Recognises stream-construction events. -/
def isConstructEvent {E : Type} : Event E → Bool
  | Event.constructStream _ _ => true
  | _ => false

/-- Recognises subscribe events. -/
def isSubscribeEvent {E : Type} : Event E → Bool
  | Event.subscribe _ => true
  | _ => false

/-- Number of underlying fetch streams constructed along a trace. -/
def countConstructs {E : Type} (t : List (Event E)) : Nat :=
  (t.filter isConstructEvent).length

/-- Number of stream subscriptions taken along a trace. -/
def countSubscribes {E : Type} (t : List (Event E)) : Nat :=
  (t.filter isSubscribeEvent).length

/-! Concrete instantiations used to witness the theorems: parameters,
values and errors are all `Nat`, the serializer is decimal printing. -/

/-- A serializer that never throws: decimal printing of the parameter. -/
def serializeNat : Nat → Except Nat String := fun n => Except.ok (Nat.repr n)

/-- A `Fetchable.fetch` invocation that returns a stream normally. -/
def fetchOk : Nat → Except Nat Unit := fun _ => Except.ok ()

/-- A `Fetchable.fetch` invocation that throws synchronously (error code 7). -/
def fetchThrow : Nat → Except Nat Unit := fun _ => Except.error 7

/-- A serializer that throws (error code 3). -/
def serializeThrow : Nat → Except Nat String := fun _ => Except.error 3

/-- Options left at their defaults: mutable, dedupe window 2000, no timer. -/
def optsDefault : ResourceOptions :=
  { immutable := false, dedupeMs := none, timeoutMs := none }

/-- `immutable: true` with a zero dedupe window. -/
def optsImmutable : ResourceOptions :=
  { immutable := true, dedupeMs := some 0, timeoutMs := none }

/-- Mutable resource with deduplication disabled (`dedupeMs: 0`). -/
def optsImmutableOffDedupeZero : ResourceOptions :=
  { immutable := false, dedupeMs := some 0, timeoutMs := none }

/-! Helper lemmas about the bookkeeping of `connect` / `disconnect` and the
cache primitives. -/

theorem countConstructs_append {E : Type} (a b : List (Event E)) :
    countConstructs (a ++ b) = countConstructs a + countConstructs b := by
  simp [countConstructs, List.filter_append]

theorem countSubscribes_append {E : Type} (a b : List (Event E)) :
    countSubscribes (a ++ b) = countSubscribes a + countSubscribes b := by
  simp [countSubscribes, List.filter_append]

theorem connect_state {P V E : Type} (opts : ResourceOptions) (w : World P V E) :
    (connect opts w).res.state = w.res.state := by
  unfold connect; split <;> rfl

theorem connect_value {P V E : Type} (opts : ResourceOptions) (w : World P V E) :
    (connect opts w).res.value = w.res.value := by
  unfold connect; split <;> rfl

theorem connect_params {P V E : Type} (opts : ResourceOptions) (w : World P V E) :
    (connect opts w).res.params = w.res.params := by
  unfold connect; split <;> rfl

theorem connect_cache {P V E : Type} (opts : ResourceOptions) (w : World P V E) :
    (connect opts w).cache = w.cache := by
  unfold connect; split <;> rfl

theorem connect_connected {P V E : Type} (opts : ResourceOptions)
    (w : World P V E) : (connect opts w).res.connected = true := by
  unfold connect; split
  · next h => exact h
  · rfl

theorem disconnect_state {P V E : Type} (w : World P V E) :
    (disconnect w).res.state = w.res.state := by
  unfold disconnect; split <;> rfl

theorem disconnect_value {P V E : Type} (w : World P V E) :
    (disconnect w).res.value = w.res.value := by
  unfold disconnect; split <;> rfl

theorem disconnect_params {P V E : Type} (w : World P V E) :
    (disconnect w).res.params = w.res.params := by
  unfold disconnect; split <;> rfl

theorem disconnect_cache {P V E : Type} (w : World P V E) :
    (disconnect w).cache = w.cache := by
  unfold disconnect; split <;> rfl

theorem countConstructs_connect {P V E : Type} (opts : ResourceOptions)
    (w : World P V E) :
    countConstructs (connect opts w).trace = countConstructs w.trace := by
  unfold connect; split
  · rfl
  · simp [countConstructs_append, countConstructs, isConstructEvent]

theorem countConstructs_disconnect {P V E : Type} (w : World P V E) :
    countConstructs (disconnect w).trace = countConstructs w.trace := by
  unfold disconnect; split
  · simp [countConstructs_append, countConstructs, isConstructEvent]
  · rfl

theorem countSubscribes_disconnect {P V E : Type} (w : World P V E) :
    countSubscribes (disconnect w).trace = countSubscribes w.trace := by
  unfold disconnect; split
  · simp [countSubscribes_append, countSubscribes, isSubscribeEvent]
  · rfl

theorem cacheLookup_cacheDelete_self (c : List (String × CacheEntry))
    (k : String) : cacheLookup (cacheDelete c k) k = none := by
  induction c with
  | nil => rfl
  | cons hd tl ih =>
    obtain ⟨k1, e1⟩ := hd
    by_cases h : k1 = k
    · simp [cacheDelete, h, ih]
    · simp [cacheDelete, cacheLookup, h, ih]

theorem cacheLookup_cacheDelete_ne (c : List (String × CacheEntry))
    (k k' : String) (h : k' ≠ k) :
    cacheLookup (cacheDelete c k) k' = cacheLookup c k' := by
  induction c with
  | nil => rfl
  | cons hd tl ih =>
    obtain ⟨k1, e1⟩ := hd
    by_cases h2 : k1 = k'
    · have h1 : ¬k1 = k := by rw [h2]; exact h
      simp [cacheDelete, cacheLookup, h1, h2, h]
    · by_cases h1 : k1 = k
      · have h3 : ¬k = k' := h1 ▸ h2
        simp [cacheDelete, cacheLookup, h1, h2, h3, ih]
      · simp [cacheDelete, cacheLookup, h1, h2, ih]

/-- The first `fetch` on a fresh resource (state `EMPTY`, empty class cache):
it constructs stream 1, stores it under the computed key, moves to `READY`
and does not connect. -/
theorem fetch_initial_eq {P V E : Type} (opts : ResourceOptions)
    (serialize : P → Except E String) (fetchable : P → Except E Unit)
    (now : Int) (params : P) (k : String)
    (hs : serialize params = Except.ok k)
    (hf : fetchable params = Except.ok ()) :
    fetch opts serialize fetchable now params (initialWorld P V E) =
      { res := { state := ResourceState.READY
                 value := none
                 thrownError := none
                 params := some params
                 cacheKey := some k
                 sourceId := 1
                 pending := false
                 slow := false
                 timeout := false
                 connected := false
                 subscribedTo := none }
        cache := [(k, { source := 1, lastModified := some now })]
        nextStreamId := 2
        trace := [Event.constructStream k 1] } := by
  simp [fetch, hs, hf, initialWorld, initialResource, cacheLookup,
    isWithinDedupeInterval, cacheSet]

/-- Claim C1: `Resource.fetch` never raises to its caller (it is a total
function here, mirroring the `try/catch` around the whole body, and always
returns the resource). When cache-key serialization throws, or the stream
is to be (re)built and the `Fetchable.fetch` invocation throws
synchronously, the error is routed through `observer.error`, leaving
`state = ERROR`, `pending = false` and `thrownError` set to the thrown
error. -/
theorem c1_fetch_sync_throw_to_error {P V E : Type} (opts : ResourceOptions)
    (serialize : P → Except E String) (fetchable : P → Except E Unit)
    (now : Int) (params : P) (w : World P V E) (e : E) (k : String)
    (h : serialize params = Except.error e ∨
      (serialize params = Except.ok k ∧
        ((!opts.immutable || (cacheLookup w.cache k).isNone) &&
          !isWithinDedupeInterval (opts.dedupeMs.getD 2000) now
            ((cacheLookup w.cache k).bind (fun c => c.lastModified))) = true ∧
        fetchable params = Except.error e)) :
    (fetch opts serialize fetchable now params w).res.state =
        ResourceState.ERROR ∧
    (fetch opts serialize fetchable now params w).res.pending = false ∧
    (fetch opts serialize fetchable now params w).res.thrownError = some e := by
  rcases h with hs | ⟨hs, hbuild, hf⟩
  · simp [fetch, hs, observerError, emit]
  · simp [fetch, hs, hbuild, hf, observerError, emit]

/-- Witness for C1: a serializer that throws error 3 on a fresh resource. -/
theorem c1_witness :
    (fetch optsDefault serializeThrow fetchOk 0 5
        (initialWorld Nat Nat Nat)).res.state = ResourceState.ERROR ∧
    (fetch optsDefault serializeThrow fetchOk 0 5
        (initialWorld Nat Nat Nat)).res.pending = false ∧
    (fetch optsDefault serializeThrow fetchOk 0 5
        (initialWorld Nat Nat Nat)).res.thrownError = some 3 :=
  c1_fetch_sync_throw_to_error optsDefault serializeThrow fetchOk 0 5
    (initialWorld Nat Nat Nat) 3 "" (Or.inl rfl)

/-- Claim C2: on a fresh resource, the first `fetch` constructs exactly one
stream; a second `fetch` with the same params within the dedupe window
(`dedupeMs`, default 2000) constructs none; after the window has elapsed it
constructs a second one; and a zero window disables deduplication, so the
second `fetch` always constructs a new stream (times taken
non-decreasing). -/
theorem c2_dedupe_window {P V E : Type} (opts : ResourceOptions)
    (serialize : P → Except E String) (fetchable : P → Except E Unit)
    (params : P) (k : String) (t0 t1 : Int)
    (himm : opts.immutable = false)
    (hs : serialize params = Except.ok k)
    (hf : fetchable params = Except.ok ()) :
    countConstructs (fetch opts serialize fetchable t0 params
        (initialWorld P V E)).trace = 1 ∧
    (t1 - t0 < opts.dedupeMs.getD 2000 →
      countConstructs (fetch opts serialize fetchable t1 params
        (fetch opts serialize fetchable t0 params
          (initialWorld P V E))).trace = 1) ∧
    (opts.dedupeMs.getD 2000 ≤ t1 - t0 →
      countConstructs (fetch opts serialize fetchable t1 params
        (fetch opts serialize fetchable t0 params
          (initialWorld P V E))).trace = 2) ∧
    (opts.dedupeMs = some 0 → t0 ≤ t1 →
      countConstructs (fetch opts serialize fetchable t1 params
        (fetch opts serialize fetchable t0 params
          (initialWorld P V E))).trace = 2) := by
  rw [fetch_initial_eq opts serialize fetchable t0 params k hs hf]
  refine ⟨by simp [countConstructs, isConstructEvent], ?_, ?_, ?_⟩
  · intro hlt
    simp [fetch, hs, hf, cacheLookup, isWithinDedupeInterval, hlt, himm,
      connect, disconnect, countConstructs, isConstructEvent]
  · intro hge
    have hlt : ¬(t1 - t0 < opts.dedupeMs.getD 2000) := by omega
    simp [fetch, hs, hf, cacheLookup, isWithinDedupeInterval, hlt, himm,
      cacheSet, connect, disconnect, countConstructs, isConstructEvent]
  · intro hz hle
    have hlt : ¬(t1 - t0 < opts.dedupeMs.getD 2000) := by
      rw [hz]; simp; omega
    simp [fetch, hs, hf, cacheLookup, isWithinDedupeInterval, hlt, himm,
      cacheSet, connect, disconnect, countConstructs, isConstructEvent]

/-- Witness for C2: params 5 fetched at times 0, then 100 (within the
default 2000 window: still one construction), then 3000 (a second
construction); and with a zero window at times 0 then 0. -/
theorem c2_witness :
    countConstructs (fetch optsDefault serializeNat fetchOk 0 5
        (initialWorld Nat Nat Nat)).trace = 1 ∧
    countConstructs (fetch optsDefault serializeNat fetchOk 100 5
        (fetch optsDefault serializeNat fetchOk 0 5
          (initialWorld Nat Nat Nat))).trace = 1 ∧
    countConstructs (fetch optsDefault serializeNat fetchOk 3000 5
        (fetch optsDefault serializeNat fetchOk 0 5
          (initialWorld Nat Nat Nat))).trace = 2 ∧
    countConstructs (fetch optsImmutableOffDedupeZero serializeNat fetchOk 0 5
        (fetch optsImmutableOffDedupeZero serializeNat fetchOk 0 5
          (initialWorld Nat Nat Nat))).trace = 2 :=
  ⟨(c2_dedupe_window optsDefault serializeNat fetchOk 5 "5" 0 100
      rfl rfl rfl).1,
   (c2_dedupe_window optsDefault serializeNat fetchOk 5 "5" 0 100
      rfl rfl rfl).2.1 (by decide),
   (c2_dedupe_window optsDefault serializeNat fetchOk 5 "5" 0 3000
      rfl rfl rfl).2.2.1 (by decide),
   (c2_dedupe_window optsImmutableOffDedupeZero serializeNat fetchOk 5 "5" 0 0
      rfl rfl rfl).2.2.2 rfl (by decide)⟩

/-- Claim C3: with `immutable: true`, once a cache entry exists for the key
the params serialize to, `fetch` constructs no new stream and leaves the
class cache (hence the entry for that key) unchanged, whatever the dedupe
window is. -/
theorem c3_immutable_no_refetch {P V E : Type} (opts : ResourceOptions)
    (serialize : P → Except E String) (fetchable : P → Except E Unit)
    (now : Int) (params : P) (k : String) (entry : CacheEntry)
    (w : World P V E)
    (himm : opts.immutable = true)
    (hs : serialize params = Except.ok k)
    (hc : cacheLookup w.cache k = some entry) :
    countConstructs (fetch opts serialize fetchable now params w).trace =
      countConstructs w.trace ∧
    (fetch opts serialize fetchable now params w).cache = w.cache := by
  by_cases hsc : w.res.state = ResourceState.EMPTY
  · simp [fetch, hs, hc, himm, hsc]
  · simp [fetch, hs, hc, himm, hsc, countConstructs_connect,
      countConstructs_disconnect, connect_cache, disconnect_cache]

/-- Witness for C3: an immutable resource with a zero dedupe window,
fetched twice with the same params: the second `fetch` adds no
construction and leaves the cache untouched. -/
theorem c3_witness :
    countConstructs (fetch optsImmutable serializeNat fetchOk 5000 5
        (fetch optsImmutable serializeNat fetchOk 0 5
          (initialWorld Nat Nat Nat))).trace =
      countConstructs (fetch optsImmutable serializeNat fetchOk 0 5
        (initialWorld Nat Nat Nat)).trace ∧
    (fetch optsImmutable serializeNat fetchOk 5000 5
        (fetch optsImmutable serializeNat fetchOk 0 5
          (initialWorld Nat Nat Nat))).cache =
      (fetch optsImmutable serializeNat fetchOk 0 5
        (initialWorld Nat Nat Nat)).cache :=
  c3_immutable_no_refetch optsImmutable serializeNat fetchOk 5000 5 "5"
    { source := 1, lastModified := some 0 }
    (fetch optsImmutable serializeNat fetchOk 0 5 (initialWorld Nat Nat Nat))
    rfl rfl (by decide)

/-- Claim C4: lazy subscription. After the first `fetch` on a fresh
resource (state `EMPTY`) no subscription exists; the first `read` (state is
then `READY`) connects and subscribes exactly once; a further `read` adds
no subscription, and `connect` on the connected resource is a no-op. -/
theorem c4_lazy_subscription {P V E : Type} (opts : ResourceOptions)
    (serialize : P → Except E String) (fetchable : P → Except E Unit)
    (now : Int) (params : P) (k : String)
    (hs : serialize params = Except.ok k)
    (hf : fetchable params = Except.ok ()) :
    countSubscribes (fetch opts serialize fetchable now params
        (initialWorld P V E)).trace = 0 ∧
    (fetch opts serialize fetchable now params
        (initialWorld P V E)).res.connected = false ∧
    countSubscribes (read opts (fetch opts serialize fetchable now params
        (initialWorld P V E))).1.trace = 1 ∧
    (read opts (fetch opts serialize fetchable now params
        (initialWorld P V E))).1.res.connected = true ∧
    countSubscribes (read opts (read opts (fetch opts serialize fetchable now
        params (initialWorld P V E))).1).1.trace = 1 ∧
    connect opts (read opts (fetch opts serialize fetchable now params
        (initialWorld P V E))).1 =
      (read opts (fetch opts serialize fetchable now params
        (initialWorld P V E))).1 := by
  rw [fetch_initial_eq opts serialize fetchable now params k hs hf]
  refine ⟨by simp [countSubscribes, isSubscribeEvent], rfl, ?_, ?_, ?_, ?_⟩
  · simp [read, connect, countSubscribes_append, countSubscribes,
      isSubscribeEvent]
  · simp [read, connect]
  · simp [read, connect, countSubscribes_append, countSubscribes,
      isSubscribeEvent]
  · simp [read, connect]

/-- Witness for C4 at params 5, default options, time 0. -/
theorem c4_witness :
    countSubscribes (fetch optsDefault serializeNat fetchOk 0 5
        (initialWorld Nat Nat Nat)).trace = 0 ∧
    (fetch optsDefault serializeNat fetchOk 0 5
        (initialWorld Nat Nat Nat)).res.connected = false ∧
    countSubscribes (read optsDefault (fetch optsDefault serializeNat fetchOk
        0 5 (initialWorld Nat Nat Nat))).1.trace = 1 ∧
    (read optsDefault (fetch optsDefault serializeNat fetchOk 0 5
        (initialWorld Nat Nat Nat))).1.res.connected = true ∧
    countSubscribes (read optsDefault (read optsDefault (fetch optsDefault
        serializeNat fetchOk 0 5 (initialWorld Nat Nat Nat))).1).1.trace = 1 ∧
    connect optsDefault (read optsDefault (fetch optsDefault serializeNat
        fetchOk 0 5 (initialWorld Nat Nat Nat))).1 =
      (read optsDefault (fetch optsDefault serializeNat fetchOk 0 5
        (initialWorld Nat Nat Nat))).1 :=
  c4_lazy_subscription optsDefault serializeNat fetchOk 0 5 "5" rfl rfl

/-- Counterexample to C5 as stated: cache-key computation succeeds
(`serializeNat 5 = ok "5"`), yet `fetch` does not leave `READY` — the
`Fetchable.fetch` invocation throws synchronously and the `catch` routes it
to the `ERROR` state. -/
theorem c5_counterexample :
    serializeNat 5 = Except.ok "5" ∧
    (fetch optsDefault serializeNat fetchThrow 0 5
        (initialWorld Nat Nat Nat)).res.state ≠ ResourceState.READY ∧
    (fetch optsDefault serializeNat fetchThrow 0 5
        (initialWorld Nat Nat Nat)).res.state = ResourceState.ERROR := by
  refine ⟨rfl, ?_, ?_⟩ <;> decide

/-- Claim C5 (amended): every `fetch` call that throws neither during
cache-key computation nor during the synchronous `Fetchable.fetch`
invocation leaves `state = READY` and stores the given params — including
calls suppressed by the dedupe window or by `immutable`; if cache-key
computation throws, state becomes `ERROR` instead (as it also does when the
fetch invocation throws, per C1). -/
theorem c5_fetch_ready_amended {P V E : Type} (opts : ResourceOptions)
    (serialize : P → Except E String) (fetchable : P → Except E Unit)
    (now : Int) (params : P) (w : World P V E) (k : String) (e : E) :
    (serialize params = Except.ok k → fetchable params = Except.ok () →
      (fetch opts serialize fetchable now params w).res.state =
          ResourceState.READY ∧
      (fetch opts serialize fetchable now params w).res.params =
          some params) ∧
    (serialize params = Except.error e →
      (fetch opts serialize fetchable now params w).res.state =
          ResourceState.ERROR ∧
      (fetch opts serialize fetchable now params w).res.thrownError =
          some e) := by
  constructor
  · intro hs hf
    rcases hcl : cacheLookup w.cache k with _ | c <;>
    · simp only [fetch, hs, hf, hcl]
      constructor <;>
        split_ifs <;>
          simp [connect_state, disconnect_state, connect_params,
            disconnect_params]
  · intro hs
    simp [fetch, hs, observerError, emit]

/-- Witness for C5 (amended): both branches at concrete inputs — a normal
fetch ends `READY` with params stored; a throwing serializer ends
`ERROR` with the error stored. -/
theorem c5_witness :
    ((fetch optsDefault serializeNat fetchOk 0 5
        (initialWorld Nat Nat Nat)).res.state = ResourceState.READY ∧
     (fetch optsDefault serializeNat fetchOk 0 5
        (initialWorld Nat Nat Nat)).res.params = some 5) ∧
    ((fetch optsDefault serializeThrow fetchOk 0 5
        (initialWorld Nat Nat Nat)).res.state = ResourceState.ERROR ∧
     (fetch optsDefault serializeThrow fetchOk 0 5
        (initialWorld Nat Nat Nat)).res.thrownError = some 3) :=
  ⟨(c5_fetch_ready_amended optsDefault serializeNat fetchOk 0 5
      (initialWorld Nat Nat Nat) "5" 0).1 rfl rfl,
   (c5_fetch_ready_amended optsDefault serializeThrow fetchOk 0 5
      (initialWorld Nat Nat Nat) "" 3).2 rfl⟩

/-- Claim C6: `read` is synchronous and side-effect-bounded: it returns the
stored value without modifying it and never changes `state`; when
`state = ERROR`, each call leaves every resource field unchanged and
forwards `thrownError` to the `ErrorHandler` exactly once. -/
theorem c6_read_bounded {P V E : Type} (opts : ResourceOptions)
    (w : World P V E) :
    (read opts w).2 = w.res.value ∧
    (read opts w).1.res.value = w.res.value ∧
    (read opts w).1.res.state = w.res.state ∧
    (w.res.state = ResourceState.ERROR →
      (read opts w).1.res = w.res ∧
      (read opts w).1.trace =
        w.trace ++ [Event.handleError w.res.thrownError]) := by
  unfold read
  rcases hst : w.res.state <;>
    simp [hst, connect_value, connect_state]

/-- Witness for C6 on a resource in `ERROR` state (throwing serializer):
reading reports error 3 to the handler and changes nothing else. -/
theorem c6_witness :
    (read optsDefault (fetch optsDefault serializeThrow fetchOk 0 5
        (initialWorld Nat Nat Nat))).2 =
      (fetch optsDefault serializeThrow fetchOk 0 5
        (initialWorld Nat Nat Nat)).res.value ∧
    (read optsDefault (fetch optsDefault serializeThrow fetchOk 0 5
        (initialWorld Nat Nat Nat))).1.res.value =
      (fetch optsDefault serializeThrow fetchOk 0 5
        (initialWorld Nat Nat Nat)).res.value ∧
    (read optsDefault (fetch optsDefault serializeThrow fetchOk 0 5
        (initialWorld Nat Nat Nat))).1.res.state =
      (fetch optsDefault serializeThrow fetchOk 0 5
        (initialWorld Nat Nat Nat)).res.state ∧
    ((fetch optsDefault serializeThrow fetchOk 0 5
        (initialWorld Nat Nat Nat)).res.state = ResourceState.ERROR →
      (read optsDefault (fetch optsDefault serializeThrow fetchOk 0 5
          (initialWorld Nat Nat Nat))).1.res =
        (fetch optsDefault serializeThrow fetchOk 0 5
          (initialWorld Nat Nat Nat)).res ∧
      (read optsDefault (fetch optsDefault serializeThrow fetchOk 0 5
          (initialWorld Nat Nat Nat))).1.trace =
        (fetch optsDefault serializeThrow fetchOk 0 5
            (initialWorld Nat Nat Nat)).trace ++
          [Event.handleError (fetch optsDefault serializeThrow fetchOk 0 5
            (initialWorld Nat Nat Nat)).res.thrownError]) :=
  c6_read_bounded optsDefault
    (fetch optsDefault serializeThrow fetchOk 0 5 (initialWorld Nat Nat Nat))

/-- Claim C7: a `fetch` on an already-connected resource (state not
`EMPTY`, live subscription to stream `oldSid`) that builds a new stream
appends, in order, the construction, the unsubscription of the old
subscription, and the subscription to the new stream — the unsubscribe
strictly precedes the new subscribe — and afterwards the resource is
subscribed to the fresh stream only, so delivering any `next`, `error` or
`complete` event from the superseded stream changes nothing. -/
theorem c7_supersede_unsubscribes_first {P V E : Type}
    (opts : ResourceOptions) (serialize : P → Except E String)
    (fetchable : P → Except E Unit) (now : Int) (params : P) (k : String)
    (oldSid : Nat) (w : World P V E) (v : V) (e : E)
    (hs : serialize params = Except.ok k)
    (hf : fetchable params = Except.ok ())
    (hstate : w.res.state ≠ ResourceState.EMPTY)
    (hconn : w.res.connected = true)
    (hsub : w.res.subscribedTo = some oldSid)
    (hbuild : ((!opts.immutable || (cacheLookup w.cache k).isNone) &&
      !isWithinDedupeInterval (opts.dedupeMs.getD 2000) now
        ((cacheLookup w.cache k).bind (fun c => c.lastModified))) = true)
    (hfresh : oldSid < w.nextStreamId) :
    (fetch opts serialize fetchable now params w).trace =
      w.trace ++ [Event.constructStream k w.nextStreamId,
        Event.unsubscribe (some oldSid),
        Event.subscribe w.nextStreamId] ∧
    (fetch opts serialize fetchable now params w).res.subscribedTo =
      some w.nextStreamId ∧
    deliverNext oldSid v (fetch opts serialize fetchable now params w) =
      fetch opts serialize fetchable now params w ∧
    deliverError oldSid e (fetch opts serialize fetchable now params w) =
      fetch opts serialize fetchable now params w ∧
    deliverComplete oldSid (fetch opts serialize fetchable now params w) =
      fetch opts serialize fetchable now params w := by
  have hne : ¬(w.nextStreamId = oldSid) := by omega
  rcases hcl : cacheLookup w.cache k with _ | c <;>
  · rw [hcl] at hbuild
    simp only [fetch, hs, hf, hcl, hbuild]
    simp [hstate, connect, disconnect, hconn, hsub, deliverNext,
      deliverError, deliverComplete, hne]

/-- Witness for C7: a connected resource (params 5 fetched at time 0, then
read), superseded by a `fetch` at time 3000 (outside the dedupe window):
old subscription 1 is dropped before subscription 2 is taken, and stale
events from stream 1 are no-ops. -/
theorem c7_witness :
    (fetch optsDefault serializeNat fetchOk 3000 5
        (read optsDefault (fetch optsDefault serializeNat fetchOk 0 5
          (initialWorld Nat Nat Nat))).1).trace =
      (read optsDefault (fetch optsDefault serializeNat fetchOk 0 5
          (initialWorld Nat Nat Nat))).1.trace ++
        [Event.constructStream "5" 2, Event.unsubscribe (some 1),
          Event.subscribe 2] ∧
    (fetch optsDefault serializeNat fetchOk 3000 5
        (read optsDefault (fetch optsDefault serializeNat fetchOk 0 5
          (initialWorld Nat Nat Nat))).1).res.subscribedTo = some 2 ∧
    deliverNext 1 9 (fetch optsDefault serializeNat fetchOk 3000 5
        (read optsDefault (fetch optsDefault serializeNat fetchOk 0 5
          (initialWorld Nat Nat Nat))).1) =
      fetch optsDefault serializeNat fetchOk 3000 5
        (read optsDefault (fetch optsDefault serializeNat fetchOk 0 5
          (initialWorld Nat Nat Nat))).1 ∧
    deliverError 1 7 (fetch optsDefault serializeNat fetchOk 3000 5
        (read optsDefault (fetch optsDefault serializeNat fetchOk 0 5
          (initialWorld Nat Nat Nat))).1) =
      fetch optsDefault serializeNat fetchOk 3000 5
        (read optsDefault (fetch optsDefault serializeNat fetchOk 0 5
          (initialWorld Nat Nat Nat))).1 ∧
    deliverComplete 1 (fetch optsDefault serializeNat fetchOk 3000 5
        (read optsDefault (fetch optsDefault serializeNat fetchOk 0 5
          (initialWorld Nat Nat Nat))).1) =
      fetch optsDefault serializeNat fetchOk 3000 5
        (read optsDefault (fetch optsDefault serializeNat fetchOk 0 5
          (initialWorld Nat Nat Nat))).1 :=
  c7_supersede_unsubscribes_first optsDefault serializeNat fetchOk 3000 5
    "5" 1
    (read optsDefault (fetch optsDefault serializeNat fetchOk 0 5
      (initialWorld Nat Nat Nat))).1
    9 7 rfl rfl (by decide) (by decide) (by decide) (by decide) (by decide)

/-- Claim C8: when the slow timer fires while the resource is still
pending (no value, error or completion has been delivered since
connecting, all of which clear `pending`), the resource moves to `SLOW`
with `pending` still true and `slow = true`; any subsequent value, error
or completion event emitted afterwards sets `slow` back to false. -/
theorem c8_slow_timer {P V E : Type} (w : World P V E) (v : V) (e : E)
    (hp : w.res.pending = true) :
    (slowFire w).res.state = ResourceState.SLOW ∧
    (slowFire w).res.pending = true ∧
    (slowFire w).res.slow = true ∧
    (observerNext v (slowFire w)).res.slow = false ∧
    (observerError e (slowFire w)).res.slow = false ∧
    (observerComplete (slowFire w)).res.slow = false := by
  simp [slowFire, observerNext, observerError, observerComplete, emit, hp]

/-- Witness for C8 on a connected (hence pending) resource. -/
theorem c8_witness :
    (slowFire (read optsDefault (fetch optsDefault serializeNat fetchOk 0 5
        (initialWorld Nat Nat Nat))).1).res.state = ResourceState.SLOW ∧
    (slowFire (read optsDefault (fetch optsDefault serializeNat fetchOk 0 5
        (initialWorld Nat Nat Nat))).1).res.pending = true ∧
    (slowFire (read optsDefault (fetch optsDefault serializeNat fetchOk 0 5
        (initialWorld Nat Nat Nat))).1).res.slow = true ∧
    (observerNext 9 (slowFire (read optsDefault (fetch optsDefault
        serializeNat fetchOk 0 5
        (initialWorld Nat Nat Nat))).1)).res.slow = false ∧
    (observerError 7 (slowFire (read optsDefault (fetch optsDefault
        serializeNat fetchOk 0 5
        (initialWorld Nat Nat Nat))).1)).res.slow = false ∧
    (observerComplete (slowFire (read optsDefault (fetch optsDefault
        serializeNat fetchOk 0 5
        (initialWorld Nat Nat Nat))).1)).res.slow = false :=
  c8_slow_timer
    (read optsDefault (fetch optsDefault serializeNat fetchOk 0 5
      (initialWorld Nat Nat Nat))).1
    9 7 (by decide)

/-- A `fetch` on a cache miss (no entry under the computed key): dedupe
cannot apply, so a fresh stream is constructed and stored; the resource
then reconnects when the state was not `EMPTY`. -/
theorem fetch_miss_eq {P V E : Type} (opts : ResourceOptions)
    (serialize : P → Except E String) (fetchable : P → Except E Unit)
    (now : Int) (params : P) (k : String) (w : World P V E)
    (hs : serialize params = Except.ok k)
    (hf : fetchable params = Except.ok ())
    (hmiss : cacheLookup w.cache k = none) :
    fetch opts serialize fetchable now params w =
      (if w.res.state ≠ ResourceState.EMPTY then
        connect opts (disconnect
          { res := { w.res with
              state := ResourceState.READY
              params := some params
              cacheKey := some k
              sourceId := w.nextStreamId }
            cache := cacheSet w.cache k
              { source := w.nextStreamId, lastModified := some now }
            nextStreamId := w.nextStreamId + 1
            trace := w.trace ++ [Event.constructStream k w.nextStreamId] })
      else
        { res := { w.res with
            state := ResourceState.READY
            params := some params
            cacheKey := some k
            sourceId := w.nextStreamId }
          cache := cacheSet w.cache k
            { source := w.nextStreamId, lastModified := some now }
          nextStreamId := w.nextStreamId + 1
          trace := w.trace ++ [Event.constructStream k w.nextStreamId] }) := by
  simp [fetch, hs, hf, hmiss, isWithinDedupeInterval]

/-- Claim C9: `invalidate(true)` empties the whole class-scoped cache
mapping; `invalidate(false)` removes exactly the entry (stream and its
dedupe timestamp) for the resource's current cache key, leaves every other
key's entry unchanged, and a subsequent `fetch` with params serializing to
that key constructs a new stream. -/
theorem c9_invalidate {P V E : Type} (opts : ResourceOptions)
    (serialize : P → Except E String) (fetchable : P → Except E Unit)
    (now : Int) (params : P) (k k' : String) (w : World P V E)
    (hk : w.res.cacheKey = some k)
    (hne : k' ≠ k)
    (hs : serialize params = Except.ok k)
    (hf : fetchable params = Except.ok ()) :
    (invalidate true w).cache = [] ∧
    cacheLookup (invalidate false w).cache k = none ∧
    cacheLookup (invalidate false w).cache k' = cacheLookup w.cache k' ∧
    countConstructs (fetch opts serialize fetchable now params
        (invalidate false w)).trace = countConstructs w.trace + 1 := by
  have hinv : invalidate false w = { w with cache := cacheDelete w.cache k } := by
    simp [invalidate, hk]
  refine ⟨rfl, ?_, ?_, ?_⟩
  · rw [hinv]; exact cacheLookup_cacheDelete_self w.cache k
  · rw [hinv]; exact cacheLookup_cacheDelete_ne w.cache k k' hne
  · rw [hinv]
    have hgone : cacheLookup (cacheDelete w.cache k) k = none :=
      cacheLookup_cacheDelete_self w.cache k
    rw [fetch_miss_eq opts serialize fetchable now params k _ hs hf hgone]
    split_ifs
    · rw [countConstructs_connect, countConstructs_disconnect]
      simp [countConstructs_append, countConstructs, isConstructEvent]
    · simp [countConstructs_append, countConstructs, isConstructEvent]

/-- Witness for C9 on a resource whose current key is "5" (params 5
fetched at time 0), with "x" as the untouched other key. -/
theorem c9_witness :
    (invalidate true (fetch optsDefault serializeNat fetchOk 0 5
        (initialWorld Nat Nat Nat))).cache = [] ∧
    cacheLookup (invalidate false (fetch optsDefault serializeNat fetchOk 0 5
        (initialWorld Nat Nat Nat))).cache "5" = none ∧
    cacheLookup (invalidate false (fetch optsDefault serializeNat fetchOk 0 5
        (initialWorld Nat Nat Nat))).cache "x" =
      cacheLookup (fetch optsDefault serializeNat fetchOk 0 5
        (initialWorld Nat Nat Nat)).cache "x" ∧
    countConstructs (fetch optsDefault serializeNat fetchOk 100 5
        (invalidate false (fetch optsDefault serializeNat fetchOk 0 5
          (initialWorld Nat Nat Nat)))).trace =
      countConstructs (fetch optsDefault serializeNat fetchOk 0 5
        (initialWorld Nat Nat Nat)).trace + 1 :=
  c9_invalidate optsDefault serializeNat fetchOk 100 5 "5" "x"
    (fetch optsDefault serializeNat fetchOk 0 5 (initialWorld Nat Nat Nat))
    (by decide) (by decide) rfl rfl

/-- Claim C10: the public `value` property is exactly `read()`, not a pure
getter: every access returns `read`'s result and performs `read`'s side
effects — it connects (taking the subscription when not yet connected)
when state is `READY`, and reports `thrownError` to the error handler when
state is `ERROR`. -/
theorem c10_value_property_is_read {P V E : Type} (opts : ResourceOptions)
    (w : World P V E) :
    valueProperty opts w = read opts w ∧
    (valueProperty opts w).2 = w.res.value ∧
    (w.res.state = ResourceState.READY →
      (valueProperty opts w).1.res.connected = true ∧
      (w.res.connected = false →
        (valueProperty opts w).1.trace =
          w.trace ++ [Event.subscribe w.res.sourceId])) ∧
    (w.res.state = ResourceState.ERROR →
      (valueProperty opts w).1.trace =
        w.trace ++ [Event.handleError w.res.thrownError]) := by
  refine ⟨rfl, ?_, ?_, ?_⟩
  · unfold valueProperty read
    rcases hst : w.res.state <;> simp [hst, connect_value]
  · intro hst
    constructor
    · simp [valueProperty, read, hst, connect_connected]
    · intro hc
      simp [valueProperty, read, hst, connect, hc]
  · intro hst
    simp [valueProperty, read, hst]

/-- Witness for C10 at a `READY`, not-yet-connected resource and at an
`ERROR` resource. -/
theorem c10_witness :
    ((valueProperty optsDefault (fetch optsDefault serializeNat fetchOk 0 5
        (initialWorld Nat Nat Nat))).1.res.connected = true ∧
     ((fetch optsDefault serializeNat fetchOk 0 5
          (initialWorld Nat Nat Nat)).res.connected = false →
       (valueProperty optsDefault (fetch optsDefault serializeNat fetchOk 0 5
          (initialWorld Nat Nat Nat))).1.trace =
         (fetch optsDefault serializeNat fetchOk 0 5
            (initialWorld Nat Nat Nat)).trace ++
           [Event.subscribe (fetch optsDefault serializeNat fetchOk 0 5
              (initialWorld Nat Nat Nat)).res.sourceId])) ∧
    (valueProperty optsDefault (fetch optsDefault serializeThrow fetchOk 0 5
        (initialWorld Nat Nat Nat))).1.trace =
      (fetch optsDefault serializeThrow fetchOk 0 5
          (initialWorld Nat Nat Nat)).trace ++
        [Event.handleError (fetch optsDefault serializeThrow fetchOk 0 5
          (initialWorld Nat Nat Nat)).res.thrownError] :=
  ⟨(c10_value_property_is_read optsDefault
      (fetch optsDefault serializeNat fetchOk 0 5
        (initialWorld Nat Nat Nat))).2.2.1 (by decide),
   (c10_value_property_is_read optsDefault
      (fetch optsDefault serializeThrow fetchOk 0 5
        (initialWorld Nat Nat Nat))).2.2.2 (by decide)⟩

end SWR
